import Mathlib

/-!
Shallow embedding of the userstack-react session-cache logic.

The repository holds several near-identical variants of a React provider
that caches a session record (sessionId, plan/package tier, feature flags,
fetch time) in a `_us_session` cookie and mirrors it in component state:

* `src/unnamed/part_001` — the "alpha2" variant (fields `sessionId`, `plan`,
  `flags`, `time`; operations identify / refresh / forget / upgrade /
  setIdGroup / summary; `DATA_TTL = 120000`).
* `src/unnamed/part_000` — the "api-beta" variant (tier field `pkgId` on
  identify/bootstrap, key `package` read on refresh/setGroup; operations
  identify / refresh / forget / setGroup, plus backend helpers
  `readSessionFromCookie` and `verifySession`; `DATA_TTL = 60000`).
* `src/src/index.tsx` — two older variants; the second one ("alpha") has a
  `refresh` that writes the cookie without touching component state.

Conventions of the embedding:

* Timestamps are `Int` (milliseconds since epoch).
* Cookie expiry values are `ℚ` (days), since `calculateCookieExpiry`
  performs real division.
* An HTTP exchange is modelled by its outcome `Resp α`: `ok payload` for a
  2xx response whose parsed JSON body is `payload`, `err text` for a non-ok
  response with body `text`.  Server JSON payloads carry an *optional*
  `time` field because JavaScript object spread makes the presence of a
  server-supplied `time` key observable (`{time: now, ...payload}` lets a
  server `time` win; `{...payload, time: now}` makes the local stamp win).
* The persisted cookie slot is `Option StoredVal`; `StoredVal.corrupt`
  stands for a stored string that `JSON.parse` rejects.  Code paths that
  call `JSON.parse` without a `try`/`catch` are embedded in `Except String`
  so that the exception is visible; paths wrapped in `try`/`catch`
  (only `readSessionFromCookie`) stay total.
* Each operation is a pure function from its inputs (arguments, current
  component state, current cookie slot, the network outcome, the clock) to
  an `Eff` record: the new component state, the new cookie slot, the number
  of network requests issued, the error raised to the caller (if any), and
  for `upgrade` the navigation target.
-/

namespace Userstack

/-- a feature-flag value: the TS type `boolean | string | number`. -/
inductive FlagVal
  | b (x : Bool)
  | s (x : String)
  | n (x : Int)
deriving DecidableEq, Repr

/-- outcome of one HTTP exchange: `ok` with the parsed JSON body for a
2xx response, `err` with the response text otherwise. -/
inductive Resp (α : Type)
  | ok (payload : α)
  | err (text : String)
deriving DecidableEq, Repr

/-- `calculateCookieExpiry = (ttl: number = 36500) => ttl / 60 / 24`,
defined identically in `src/unnamed/part_000` line 41 and
`src/unnamed/part_001` line 45.  `none` is a call with `ttl` undefined, so
the default parameter 36500 applies; the result is in days. -/
def calculateCookieExpiry (ttl : Option ℚ) : ℚ :=
  ttl.getD 36500 / 60 / 24

namespace Part001

/-- `DATA_TTL = 120000; // 2 minutes` — part_001 line 5. -/
def DATA_TTL : Int := 120000

/-- a parsed JSON body of an identify/refresh/setgroup response in
part_001: the fields the code reads (`sessionId`, `plan`, `flags`) plus an
optional server-supplied `time` key, observable through object spread. -/
structure Payload where
  sessionId : String
  plan : String
  flags : List (String × FlagVal)
  time : Option Int
deriving DecidableEq, Repr

/-- the record serialized into the `_us_session` cookie by part_001. -/
structure Cookie where
  sessionId : String
  plan : String
  flags : List (String × FlagVal)
  time : Int
deriving DecidableEq, Repr

/-- contents of the persisted `_us_session` slot: a well-formed record
with its expiry horizon (days), or a string `JSON.parse` rejects. -/
inductive StoredVal
  | record (d : Cookie) (expires : ℚ)
  | corrupt
deriving DecidableEq

/-- the provider's component state: `sessionId`, `currentPlan`, `flags`. -/
structure MemState where
  sessionId : String
  currentPlan : String
  flags : List (String × FlagVal)
deriving DecidableEq, Repr

/-- the `useState` initial values: `""`, `"none"`, `{}` — part_001
lines 54-58. -/
def initialMem : MemState := ⟨"", "none", []⟩

/-- effect of one operation: resulting component state, resulting cookie
slot, number of network requests issued, error raised to the caller, and
navigation target set via `window.location.href`. -/
structure Eff where
  mem : MemState
  store : Option StoredVal
  netCalls : Nat
  raised : Option String
  navigate : Option String
deriving DecidableEq

/-- `identify` — part_001 lines 60-89.  Always one fetch.  On ok it builds
`cookie = {...sessionData, time: Date.now()}` (the local stamp overwrites
any server `time`) and writes only the cookie, with expiry
`calculateCookieExpiry(config.ttl)`; the component state setters are never
called.  On non-ok it only logs (`console.error`); nothing is raised and
nothing changes. -/
def identify (ttl : Option ℚ) (now : Int) (resp : Resp Payload)
    (mem : MemState) (store : Option StoredVal) : Eff :=
  match resp with
  | .ok p =>
      let cookie : Cookie := ⟨p.sessionId, p.plan, p.flags, now⟩
      ⟨mem, some (.record cookie (calculateCookieExpiry ttl)), 1, none, none⟩
  | .err _ => ⟨mem, store, 1, none, none⟩

/-- `refresh` — part_001 lines 91-119.  On ok it builds
`cookie = {time: new Date().getTime(), ...sessionData}` (a server-supplied
`time` key, when present, overwrites the local stamp), then updates the
component state from the cookie and persists it with expiry 36500 days.
On non-ok it only logs. -/
def refresh (now : Int) (resp : Resp Payload)
    (mem : MemState) (store : Option StoredVal) : Eff :=
  match resp with
  | .ok p =>
      let cookie : Cookie := ⟨p.sessionId, p.plan, p.flags, p.time.getD now⟩
      ⟨⟨cookie.sessionId, cookie.plan, cookie.flags⟩,
       some (.record cookie 36500), 1, none, none⟩
  | .err _ => ⟨mem, store, 1, none, none⟩

/-- `forget` — part_001 lines 121-126: remove the cookie and reset the
component state to `""` / `"none"` / `{}`.  No fetch. -/
def forget (_mem : MemState) (_store : Option StoredVal) : Eff :=
  ⟨initialMem, none, 0, none, none⟩

/-- parsed JSON body of an upgrade response: `{redirectUrl?: string}`. -/
structure UpgradePayload where
  redirectUrl : Option String
deriving DecidableEq

/-- `upgrade` — part_001 lines 128-167.  Empty current `sessionId` or
empty `planId` means log-and-return before any fetch.  Otherwise one fetch;
on ok, navigate to `redirectUrl` when present; neither state nor cookie is
ever written.  On non-ok it only logs. -/
def upgrade (planId : String) (resp : Resp UpgradePayload)
    (mem : MemState) (store : Option StoredVal) : Eff :=
  if mem.sessionId = "" then ⟨mem, store, 0, none, none⟩
  else if planId = "" then ⟨mem, store, 0, none, none⟩
  else
    match resp with
    | .ok p => ⟨mem, store, 1, none, p.redirectUrl⟩
    | .err _ => ⟨mem, store, 1, none, none⟩

/-- `setIdGroup` — part_001 lines 169-198.  No guard: the fetch is issued
unconditionally with the current in-memory `sessionId` (possibly `""`).
On ok, same adoption as `refresh` (server `time` wins, expiry 36500 days);
on non-ok it only logs. -/
def setIdGroup (_groupId : String) (now : Int) (resp : Resp Payload)
    (mem : MemState) (store : Option StoredVal) : Eff :=
  match resp with
  | .ok p =>
      let cookie : Cookie := ⟨p.sessionId, p.plan, p.flags, p.time.getD now⟩
      ⟨⟨cookie.sessionId, cookie.plan, cookie.flags⟩,
       some (.record cookie 36500), 1, none, none⟩
  | .err _ => ⟨mem, store, 1, none, none⟩

/-- `summary` — part_001 lines 200-215.  One fetch; on ok the data is
returned to the caller, on non-ok it only logs; neither branch touches the
component state or the cookie. -/
def summary (resp : Resp Unit)
    (mem : MemState) (store : Option StoredVal) : Eff :=
  match resp with
  | .ok _ => ⟨mem, store, 1, none, none⟩
  | .err _ => ⟨mem, store, 1, none, none⟩

/-- result of the bootstrap effect. -/
structure Boot where
  mem : MemState
  store : Option StoredVal
  netCalls : Nat
deriving DecidableEq

/-- the mount `useEffect` — part_001 lines 217-231.  Absent cookie: nothing
happens.  Present cookie: `JSON.parse` is called with no `try`/`catch`, so
corrupt content raises (the `Except.error` case).  A parsed record is
adopted directly when `sessionData.time + DATA_TTL > now`, else
`refresh(sessionData.sessionId)` runs once (its rejection is absorbed by
`.catch(console.error)`). -/
def bootstrap (now : Int) (stored : Option StoredVal)
    (refreshResp : Resp Payload) : Except String Boot :=
  match stored with
  | none => .ok ⟨initialMem, none, 0⟩
  | some .corrupt => .error "SyntaxError: JSON.parse"
  | some (.record d e) =>
      if d.time + DATA_TTL > now then
        .ok ⟨⟨d.sessionId, d.plan, d.flags⟩, some (.record d e), 0⟩
      else
        let r := refresh now refreshResp initialMem (some (.record d e))
        .ok ⟨r.mem, r.store, r.netCalls⟩

end Part001

namespace Part000

/-- `DATA_TTL = 60 * 1000; // 1 minute` — part_000 line 5. -/
def DATA_TTL : Int := 60000

/-- a parsed JSON body of an identify/refresh/setgroup response in
part_000.  The code reads `pkgId` on the identify and bootstrap paths and
the key `package` on the refresh and setGroup paths; the model carries both
keys, plus the optional server-supplied `time` key. -/
structure Payload where
  sessionId : String
  pkgId : String
  package : String
  flags : List (String × FlagVal)
  time : Option Int
deriving DecidableEq, Repr

/-- the record serialized into the `_us_session` cookie by part_000: the
payload's keys with the resolved `time`. -/
structure Cookie where
  sessionId : String
  pkgId : String
  package : String
  flags : List (String × FlagVal)
  time : Int
deriving DecidableEq, Repr

/-- contents of the persisted `_us_session` slot in the part_000 variant. -/
inductive StoredVal
  | record (d : Cookie) (expires : ℚ)
  | corrupt
deriving DecidableEq

/-- the provider's component state: `sessionId`, `currentPackage`,
`flags` — part_000 lines 63-67. -/
structure MemState where
  sessionId : String
  currentPackage : String
  flags : List (String × FlagVal)
deriving DecidableEq, Repr

/-- the `useState` initial values: `''`, `'none'`, `{}`. -/
def initialMem : MemState := ⟨"", "none", []⟩

/-- effect of one part_000 operation (this variant has no `upgrade`, hence
no navigation field). -/
structure Eff where
  mem : MemState
  store : Option StoredVal
  netCalls : Nat
  raised : Option String
deriving DecidableEq

/-- `identify` — part_000 lines 69-103.  Always one fetch.  On ok it builds
`cookie = {...sessionData, time: Date.now()}` (the local stamp overwrites
any server `time`), persists it with expiry
`calculateCookieExpiry(config.ttl)`, and sets the component state from the
cookie (`sessionId`, `pkgId`, `flags`).  On non-ok it reads the response
text, logs it and `throw new Error(responseText)`. -/
def identify (ttl : Option ℚ) (now : Int) (resp : Resp Payload)
    (mem : MemState) (store : Option StoredVal) : Eff :=
  match resp with
  | .ok p =>
      let cookie : Cookie := ⟨p.sessionId, p.pkgId, p.package, p.flags, now⟩
      ⟨⟨cookie.sessionId, cookie.pkgId, cookie.flags⟩,
       some (.record cookie (calculateCookieExpiry ttl)), 1, none⟩
  | .err t => ⟨mem, store, 1, some t⟩

/-- `refresh` — part_000 lines 105-133.  On ok it builds
`cookie = {time: new Date().getTime(), ...sessionData}` (server `time` wins
when present), sets the component state from the cookie — note it reads
`cookie.package` here, not `pkgId` — and persists with expiry 36500 days.
On non-ok it only logs. -/
def refresh (now : Int) (resp : Resp Payload)
    (mem : MemState) (store : Option StoredVal) : Eff :=
  match resp with
  | .ok p =>
      let cookie : Cookie := ⟨p.sessionId, p.pkgId, p.package, p.flags, p.time.getD now⟩
      ⟨⟨cookie.sessionId, cookie.package, cookie.flags⟩,
       some (.record cookie 36500), 1, none⟩
  | .err _ => ⟨mem, store, 1, none⟩

/-- `forget` — part_000 lines 135-140: remove the cookie, reset state. -/
def forget (_mem : MemState) (_store : Option StoredVal) : Eff :=
  ⟨initialMem, none, 0, none⟩

/-- `getCookie` — part_000 lines 46-56.  Absent cookie: log and return
null.  Present cookie: `JSON.parse` with no `try`/`catch`, so corrupt
content raises. -/
def getCookie (store : Option StoredVal) : Except String (Option Cookie) :=
  match store with
  | none => .ok none
  | some .corrupt => .error "SyntaxError: JSON.parse"
  | some (.record d _) => .ok (some d)

/-- `setGroup` — part_000 lines 142-181.  When the in-memory `sessionId`
is falsy (empty) it falls back to `getCookie()`; a null cookie means
log-and-return with no fetch.  Otherwise one fetch with the resolved
`sid`; on ok, same adoption as `refresh` (reads `cookie.package`, expiry
36500 days); on non-ok it only logs. -/
def setGroup (_groupId : String) (now : Int) (resp : Resp Payload)
    (mem : MemState) (store : Option StoredVal) : Except String Eff :=
  let go : Eff :=
    match resp with
    | .ok p =>
        let cookie : Cookie := ⟨p.sessionId, p.pkgId, p.package, p.flags, p.time.getD now⟩
        ⟨⟨cookie.sessionId, cookie.package, cookie.flags⟩,
         some (.record cookie 36500), 1, none⟩
    | .err _ => ⟨mem, store, 1, none⟩
  if mem.sessionId = "" then
    match getCookie store with
    | .error e => .error e
    | .ok none => .ok ⟨mem, store, 0, none⟩
    | .ok (some _) => .ok go
  else .ok go

/-- result of the bootstrap effect. -/
structure Boot where
  mem : MemState
  store : Option StoredVal
  netCalls : Nat
deriving DecidableEq

/-- the mount `useEffect` — part_000 lines 183-197.  Same shape as the
part_001 one: unguarded `JSON.parse`, adopt when
`sessionData.time + DATA_TTL > now` (reading `pkgId`), else one `refresh`
whose rejection is absorbed by `.catch(console.error)`. -/
def bootstrap (now : Int) (stored : Option StoredVal)
    (refreshResp : Resp Payload) : Except String Boot :=
  match stored with
  | none => .ok ⟨initialMem, none, 0⟩
  | some .corrupt => .error "SyntaxError: JSON.parse"
  | some (.record d e) =>
      if d.time + DATA_TTL > now then
        .ok ⟨⟨d.sessionId, d.pkgId, d.flags⟩, some (.record d e), 0⟩
      else
        let r := refresh now refreshResp initialMem (some (.record d e))
        .ok ⟨r.mem, r.store, r.netCalls⟩

/-- the `cookie` header string handed to the server-side
`readSessionFromCookie`, abstracted to its parse outcome: `missing` when
the string is undefined or empty (falsy), `parses d` when it contains a
`_us_session=...` value that decodes and `JSON.parse`s to `d`, `garbage`
when the extracted value makes `decodeURIComponent`/`JSON.parse` throw. -/
inductive CookieHeader
  | missing
  | parses (d : Cookie)
  | garbage
deriving DecidableEq

/-- `readSessionFromCookie` — part_000 lines 227-241.  Falsy input returns
null; the extract/decode/parse pipeline is wrapped in `try`/`catch`
returning null, so the function is total: corrupt content yields `none`
rather than an exception. -/
def readSessionFromCookie : CookieHeader → Option Cookie
  | .missing => none
  | .parses d => some d
  | .garbage => none

end Part000

namespace IndexV2

/-- `refresh` of the second variant in `src/src/index.tsx` (lines 152-176
of the concatenated file).  Same payload and cookie shape as part_001.  On
ok it builds `cookie = {time: new Date().getTime(), ...sessionData}` and
writes only the cookie (expiry 36500 days); no state setter is called in
either branch.  On non-ok it only logs. -/
def refresh (now : Int) (resp : Resp Part001.Payload)
    (mem : Part001.MemState) (store : Option Part001.StoredVal) : Part001.Eff :=
  match resp with
  | .ok p =>
      let cookie : Part001.Cookie := ⟨p.sessionId, p.plan, p.flags, p.time.getD now⟩
      ⟨mem, some (.record cookie 36500), 1, none, none⟩
  | .err _ => ⟨mem, store, 1, none, none⟩

end IndexV2

/-! ### Theorems settling the claims -/

/-- C4: at bootstrap (both variants), a persisted record whose age
`now - time` is strictly below `DATA_TTL` is adopted into component state
with zero network calls, and a record whose age exceeds `DATA_TTL` triggers
exactly one refresh call. -/
theorem C4_theorem (now : Int)
    (d0 : Part000.Cookie) (e0 : ℚ) (r0 : Resp Part000.Payload)
    (d1 : Part001.Cookie) (e1 : ℚ) (r1 : Resp Part001.Payload) :
    (now - d1.time < Part001.DATA_TTL →
      Part001.bootstrap now (some (.record d1 e1)) r1
        = .ok ⟨⟨d1.sessionId, d1.plan, d1.flags⟩, some (.record d1 e1), 0⟩) ∧
    (now - d1.time > Part001.DATA_TTL →
      ∃ b : Part001.Boot,
        Part001.bootstrap now (some (.record d1 e1)) r1 = .ok b ∧
        b.netCalls = 1) ∧
    (now - d0.time < Part000.DATA_TTL →
      Part000.bootstrap now (some (.record d0 e0)) r0
        = .ok ⟨⟨d0.sessionId, d0.pkgId, d0.flags⟩, some (.record d0 e0), 0⟩) ∧
    (now - d0.time > Part000.DATA_TTL →
      ∃ b : Part000.Boot,
        Part000.bootstrap now (some (.record d0 e0)) r0 = .ok b ∧
        b.netCalls = 1) := by
  refine ⟨fun h => ?_, fun h => ?_, fun h => ?_, fun h => ?_⟩
  · simp only [Part001.bootstrap]
    rw [if_pos (show d1.time + Part001.DATA_TTL > now by omega)]
  · simp only [Part001.bootstrap]
    rw [if_neg (show ¬ d1.time + Part001.DATA_TTL > now by omega)]
    exact ⟨_, rfl, by cases r1 <;> rfl⟩
  · simp only [Part000.bootstrap]
    rw [if_pos (show d0.time + Part000.DATA_TTL > now by omega)]
  · simp only [Part000.bootstrap]
    rw [if_neg (show ¬ d0.time + Part000.DATA_TTL > now by omega)]
    exact ⟨_, rfl, by cases r0 <;> rfl⟩

/-- C4 witness: concrete fresh (age 100ms) and stale (age well past the
window) records, in both variants. -/
theorem C4_witness :
    ((100 : Int) - (0 : Int) < Part001.DATA_TTL ∧
      Part001.bootstrap 100 (some (.record ⟨"s", "p", [], 0⟩ 1)) (.err "x")
        = .ok ⟨⟨"s", "p", []⟩, some (.record ⟨"s", "p", [], 0⟩ 1), 0⟩) ∧
    ((999999 : Int) - (0 : Int) > Part001.DATA_TTL ∧
      ∃ b : Part001.Boot,
        Part001.bootstrap 999999 (some (.record ⟨"s", "p", [], 0⟩ 1)) (.err "x")
          = .ok b ∧ b.netCalls = 1) ∧
    ((100 : Int) - (0 : Int) < Part000.DATA_TTL ∧
      Part000.bootstrap 100 (some (.record ⟨"s", "pk", "pg", [], 0⟩ 1)) (.err "x")
        = .ok ⟨⟨"s", "pk", []⟩, some (.record ⟨"s", "pk", "pg", [], 0⟩ 1), 0⟩) ∧
    ((999999 : Int) - (0 : Int) > Part000.DATA_TTL ∧
      ∃ b : Part000.Boot,
        Part000.bootstrap 999999 (some (.record ⟨"s", "pk", "pg", [], 0⟩ 1)) (.err "x")
          = .ok b ∧ b.netCalls = 1) :=
  ⟨⟨by decide, (C4_theorem 100 ⟨"s", "pk", "pg", [], 0⟩ 1 (.err "x")
      ⟨"s", "p", [], 0⟩ 1 (.err "x")).1 (by decide)⟩,
   ⟨by decide, (C4_theorem 999999 ⟨"s", "pk", "pg", [], 0⟩ 1 (.err "x")
      ⟨"s", "p", [], 0⟩ 1 (.err "x")).2.1 (by decide)⟩,
   ⟨by decide, (C4_theorem 100 ⟨"s", "pk", "pg", [], 0⟩ 1 (.err "x")
      ⟨"s", "p", [], 0⟩ 1 (.err "x")).2.2.1 (by decide)⟩,
   ⟨by decide, (C4_theorem 999999 ⟨"s", "pk", "pg", [], 0⟩ 1 (.err "x")
      ⟨"s", "p", [], 0⟩ 1 (.err "x")).2.2.2 (by decide)⟩⟩

/-- C8: `upgrade` with an empty current `sessionId` or an empty `planId`
performs zero network calls, leaves component state, cookie, raised error
and navigation all untouched. -/
theorem C8_theorem (planId : String) (resp : Resp Part001.UpgradePayload)
    (mem : Part001.MemState) (store : Option Part001.StoredVal)
    (h : mem.sessionId = "" ∨ planId = "") :
    Part001.upgrade planId resp mem store = ⟨mem, store, 0, none, none⟩ := by
  unfold Part001.upgrade
  rcases h with h | h
  · rw [if_pos h]
  · by_cases hs : mem.sessionId = ""
    · rw [if_pos hs]
    · rw [if_neg hs, if_pos h]

/-- C8 witness: `upgrade` from the anonymous state is a local no-op. -/
theorem C8_witness :
    (Part001.initialMem.sessionId = "" ∨ ("p1" : String) = "") ∧
    Part001.upgrade "p1" (.err "x") Part001.initialMem none
      = ⟨Part001.initialMem, none, 0, none, none⟩ :=
  ⟨Or.inl rfl, C8_theorem "p1" (.err "x") Part001.initialMem none (Or.inl rfl)⟩

/-- C9: `forget` (both variants) always yields the anonymous state
(`sessionId = ""`, tier `"none"`, empty flags) with zero network calls and
nothing raised, and doing it twice in a row yields the same. -/
theorem C9_theorem (m0 : Part000.MemState) (s0 : Option Part000.StoredVal)
    (m1 : Part001.MemState) (s1 : Option Part001.StoredVal) :
    Part001.forget m1 s1 = ⟨⟨"", "none", []⟩, none, 0, none, none⟩ ∧
    Part001.forget (Part001.forget m1 s1).mem (Part001.forget m1 s1).store
      = ⟨⟨"", "none", []⟩, none, 0, none, none⟩ ∧
    Part000.forget m0 s0 = ⟨⟨"", "none", []⟩, none, 0, none⟩ ∧
    Part000.forget (Part000.forget m0 s0).mem (Part000.forget m0 s0).store
      = ⟨⟨"", "none", []⟩, none, 0, none⟩ :=
  ⟨rfl, rfl, rfl, rfl⟩

/-- C10: an identify call with `config.ttl` explicitly 0 persists with
expiry 0 days; the 36500 default of `calculateCookieExpiry` applies only
when `ttl` is undefined (`none`), never for a supplied value. -/
theorem C10_theorem (now : Int) (p : Part001.Payload)
    (mem : Part001.MemState) (store : Option Part001.StoredVal) :
    (Part001.identify (some 0) now (.ok p) mem store).store
      = some (.record ⟨p.sessionId, p.plan, p.flags, now⟩ 0) ∧
    calculateCookieExpiry (some 0) = 0 ∧
    (∀ t : ℚ, calculateCookieExpiry (some t) = t / 60 / 24) ∧
    calculateCookieExpiry none ≠ 0 := by
  refine ⟨?_, by norm_num [calculateCookieExpiry], fun t => rfl,
    by norm_num [calculateCookieExpiry]⟩
  simp only [Part001.identify]
  norm_num [calculateCookieExpiry]

/-- C5: what the code actually computes.  `calculateCookieExpiry` divides
by 60·24 = 1440, so `ttl = 3600` yields an expiry of 2.5 days — not the
3600/86400 ≈ 0.0417 days a seconds-to-days conversion would give — and an
absent `ttl` yields 36500/1440 = 1825/72 ≈ 25.35 days, not the 36500-day
(≈ 100 years) horizon that the default value 36500 and the repository's
"100 years should be enough" comments intend. -/
theorem C5_code_eval :
    calculateCookieExpiry (some 3600) = 5 / 2 ∧
    calculateCookieExpiry (some 3600) ≠ 3600 / 86400 ∧
    calculateCookieExpiry none = 1825 / 72 ∧
    calculateCookieExpiry none ≠ 36500 ∧
    (Part001.identify (some 3600) 0 (.ok ⟨"s1", "pro", [], none⟩)
        Part001.initialMem none).store
      = some (.record ⟨"s1", "pro", [], 0⟩ (5 / 2)) := by
  refine ⟨by norm_num [calculateCookieExpiry],
    by norm_num [calculateCookieExpiry],
    by norm_num [calculateCookieExpiry],
    by norm_num [calculateCookieExpiry], ?_⟩
  simp only [Part001.identify]
  norm_num [calculateCookieExpiry]

/-- C1 counterexample: in part_001, a successful identify response with
`sessionId = "s1"` leaves the in-memory `sessionId` at its prior value
(here `""`): the component state does not equal the response payload's
fields, because identify never calls the state setters. -/
theorem C1_counterexample :
    (Part001.identify (some 3600) 1000
        (.ok ⟨"s1", "pro", [("beta", FlagVal.b true)], some 999⟩)
        Part001.initialMem none).mem.sessionId ≠ "s1" := by
  decide

/-- C1 (amended): on a successful identify response, the persisted record's
`time` is the local adoption time in both variants, even when the server
supplies a `time` field; in part_000 the in-memory state is set to exactly
the payload's `sessionId`/`pkgId`/`flags`, while in part_001 identify
writes only the persisted copy and leaves the in-memory state untouched. -/
theorem C1_amended (ttl : Option ℚ) (now : Int)
    (p0 : Part000.Payload) (m0 : Part000.MemState) (s0 : Option Part000.StoredVal)
    (p1 : Part001.Payload) (m1 : Part001.MemState) (s1 : Option Part001.StoredVal) :
    (Part000.identify ttl now (.ok p0) m0 s0).mem
        = ⟨p0.sessionId, p0.pkgId, p0.flags⟩ ∧
    (Part000.identify ttl now (.ok p0) m0 s0).store
        = some (.record ⟨p0.sessionId, p0.pkgId, p0.package, p0.flags, now⟩
            (calculateCookieExpiry ttl)) ∧
    (Part001.identify ttl now (.ok p1) m1 s1).store
        = some (.record ⟨p1.sessionId, p1.plan, p1.flags, now⟩
            (calculateCookieExpiry ttl)) ∧
    (Part001.identify ttl now (.ok p1) m1 s1).mem = m1 :=
  ⟨rfl, rfl, rfl, rfl⟩

/-- C2 counterexample: in part_001, a successful identify writes the
persisted copy (the cookie slot goes from empty to a record) without
writing the in-memory copy (which stays at the initial anonymous state):
the two copies are not updated together. -/
theorem C2_counterexample :
    (Part001.identify none 500 (.ok ⟨"s1", "pro", [], none⟩)
        Part001.initialMem none).store ≠ none ∧
    (Part001.identify none 500 (.ok ⟨"s1", "pro", [], none⟩)
        Part001.initialMem none).mem = Part001.initialMem := by
  exact ⟨by simp [Part001.identify], rfl⟩

/-- C2 (amended): in part_000 every mutation (identify, refresh, setGroup,
forget) writes the in-memory and persisted copies together in one step, as
does refresh/setIdGroup/forget in part_001; but identify in part_001 and
refresh in the second index.tsx variant write only the persisted copy,
leaving the in-memory copy unchanged. -/
theorem C2_amended (ttl : Option ℚ) (now : Int) (g : String)
    (p0 : Part000.Payload) (m0 : Part000.MemState) (s0 : Option Part000.StoredVal)
    (d : Part000.Cookie) (e : ℚ)
    (p1 : Part001.Payload) (m1 : Part001.MemState) (s1 : Option Part001.StoredVal) :
    (Part000.identify ttl now (.ok p0) m0 s0
        = ⟨⟨p0.sessionId, p0.pkgId, p0.flags⟩,
           some (.record ⟨p0.sessionId, p0.pkgId, p0.package, p0.flags, now⟩
             (calculateCookieExpiry ttl)), 1, none⟩) ∧
    (Part000.refresh now (.ok p0) m0 s0
        = ⟨⟨p0.sessionId, p0.package, p0.flags⟩,
           some (.record ⟨p0.sessionId, p0.pkgId, p0.package, p0.flags,
             p0.time.getD now⟩ 36500), 1, none⟩) ∧
    (Part000.setGroup g now (.ok p0) Part000.initialMem (some (.record d e))
        = .ok ⟨⟨p0.sessionId, p0.package, p0.flags⟩,
           some (.record ⟨p0.sessionId, p0.pkgId, p0.package, p0.flags,
             p0.time.getD now⟩ 36500), 1, none⟩) ∧
    (Part000.forget m0 s0 = ⟨Part000.initialMem, none, 0, none⟩) ∧
    (Part001.refresh now (.ok p1) m1 s1
        = ⟨⟨p1.sessionId, p1.plan, p1.flags⟩,
           some (.record ⟨p1.sessionId, p1.plan, p1.flags, p1.time.getD now⟩ 36500),
           1, none, none⟩) ∧
    (Part001.setIdGroup g now (.ok p1) m1 s1
        = ⟨⟨p1.sessionId, p1.plan, p1.flags⟩,
           some (.record ⟨p1.sessionId, p1.plan, p1.flags, p1.time.getD now⟩ 36500),
           1, none, none⟩) ∧
    (Part001.forget m1 s1 = ⟨Part001.initialMem, none, 0, none, none⟩) ∧
    (Part001.identify ttl now (.ok p1) m1 s1
        = ⟨m1, some (.record ⟨p1.sessionId, p1.plan, p1.flags, now⟩
             (calculateCookieExpiry ttl)), 1, none, none⟩) ∧
    (IndexV2.refresh now (.ok p1) m1 s1
        = ⟨m1, some (.record ⟨p1.sessionId, p1.plan, p1.flags, p1.time.getD now⟩ 36500),
           1, none, none⟩) :=
  ⟨rfl, rfl, rfl, rfl, rfl, rfl, rfl, rfl, rfl⟩

/-- C3 counterexample: in part_001, identify with a non-ok response raises
nothing to the caller (the failure is only logged), so identify's failure
does not reach the caller as an error carrying the server's response
text. -/
theorem C3_counterexample :
    (Part001.identify none 0 (.err "server says no")
        Part001.initialMem none).raised = none :=
  rfl

/-- C3 (amended): identify raises its failure — carrying the server's
response text — in the part_000 variant only; in part_001 a failed
identify is logged and absorbed like every other operation.  In both
variants, every absorbed failure (identify in part_001, refresh, setGroup
in part_000 on both of its fetch-reaching paths — any non-empty in-memory
`sessionId`, written `String.mk (c :: l)`, or the anonymous state with a
well-formed stored cookie — setIdGroup, upgrade, summary) leaves the
component state and the persisted copy exactly unchanged and raises
nothing. -/
theorem C3_amended (t : String) (ttl : Option ℚ) (now : Int) (g pl : String)
    (c : Char) (l : List Char) (cp : String) (fl : List (String × FlagVal))
    (d : Part000.Cookie) (e : ℚ)
    (m0 : Part000.MemState) (s0 : Option Part000.StoredVal)
    (m1 : Part001.MemState) (s1 : Option Part001.StoredVal) :
    (Part000.identify ttl now (.err t) m0 s0 = ⟨m0, s0, 1, some t⟩) ∧
    (Part000.refresh now (.err t) m0 s0 = ⟨m0, s0, 1, none⟩) ∧
    (Part000.setGroup g now (.err t) ⟨String.mk (c :: l), cp, fl⟩ s0
        = .ok ⟨⟨String.mk (c :: l), cp, fl⟩, s0, 1, none⟩) ∧
    (Part000.setGroup g now (.err t) ⟨"", cp, fl⟩ (some (.record d e))
        = .ok ⟨⟨"", cp, fl⟩, some (.record d e), 1, none⟩) ∧
    (Part001.identify ttl now (.err t) m1 s1 = ⟨m1, s1, 1, none, none⟩) ∧
    (Part001.refresh now (.err t) m1 s1 = ⟨m1, s1, 1, none, none⟩) ∧
    (Part001.setIdGroup g now (.err t) m1 s1 = ⟨m1, s1, 1, none, none⟩) ∧
    ((Part001.upgrade pl (.err t) m1 s1).mem = m1 ∧
     (Part001.upgrade pl (.err t) m1 s1).store = s1 ∧
     (Part001.upgrade pl (.err t) m1 s1).raised = none) ∧
    (Part001.summary (.err t) m1 s1 = ⟨m1, s1, 1, none, none⟩) := by
  refine ⟨rfl, rfl, rfl, rfl, rfl, rfl, rfl, ?_, rfl⟩
  unfold Part001.upgrade
  split
  · exact ⟨rfl, rfl, rfl⟩
  · split
    · exact ⟨rfl, rfl, rfl⟩
    · exact ⟨rfl, rfl, rfl⟩

/-- C6 counterexample: the part_001 bootstrap path calls `JSON.parse`
with no guard, so a corrupt persisted value makes bootstrap raise a parse
exception instead of treating the value as absent and yielding the
anonymous state. -/
theorem C6_counterexample :
    Part001.bootstrap 0 (some .corrupt) (.err "")
      = .error "SyntaxError: JSON.parse" :=
  rfl

/-- C6 (amended): only the server-side `readSessionFromCookie` treats
undeserializable content as absent (it returns null and never throws); the
client bootstrap paths of both variants and `getCookie` parse without a
guard, so a corrupt persisted value raises a parse exception there. -/
theorem C6_amended (now : Int)
    (r0 : Resp Part000.Payload) (r1 : Resp Part001.Payload) :
    Part000.readSessionFromCookie .garbage = none ∧
    Part000.readSessionFromCookie .missing = none ∧
    (∀ d : Part000.Cookie, Part000.readSessionFromCookie (.parses d) = some d) ∧
    Part000.getCookie (some .corrupt) = .error "SyntaxError: JSON.parse" ∧
    Part001.bootstrap now (some .corrupt) r1 = .error "SyntaxError: JSON.parse" ∧
    Part000.bootstrap now (some .corrupt) r0 = .error "SyntaxError: JSON.parse" :=
  ⟨rfl, rfl, fun _ => rfl, rfl, rfl, rfl⟩

/-- C7 counterexample: in part_001, `setIdGroup` called from the anonymous
state with no persisted record still issues its network request (with the
empty in-memory `sessionId`) — one fetch, not zero. -/
theorem C7_counterexample :
    (Part001.setIdGroup "g1" 0 (.err "") Part001.initialMem none).netCalls
      = 1 :=
  rfl

/-- C7 (amended): in part_000, `setGroup` with an empty in-memory
`sessionId` and no persisted cookie performs zero network calls, leaves
both copies unchanged (still anonymous) and raises nothing, only logging;
in part_001, `setIdGroup` issues its network request unconditionally. -/
theorem C7_amended (g : String) (now : Int)
    (r0 : Resp Part000.Payload) (m0 : Part000.MemState)
    (r1 : Resp Part001.Payload) (m1 : Part001.MemState)
    (s1 : Option Part001.StoredVal)
    (h : m0.sessionId = "") :
    Part000.setGroup g now r0 m0 none = .ok ⟨m0, none, 0, none⟩ ∧
    (Part001.setIdGroup g now r1 m1 s1).netCalls = 1 := by
  constructor
  · unfold Part000.setGroup
    rw [if_pos h]
    rfl
  · cases r1 <;> rfl

/-- C7 witness: concrete anonymous state, absent cookie. -/
theorem C7_witness :
    Part000.initialMem.sessionId = "" ∧
    (Part000.setGroup "g1" 0 (.err "x") Part000.initialMem none
        = .ok ⟨Part000.initialMem, none, 0, none⟩ ∧
     (Part001.setIdGroup "g1" 0 (.err "x") Part001.initialMem none).netCalls
        = 1) :=
  ⟨rfl, C7_amended "g1" 0 (.err "x") Part000.initialMem (.err "x")
    Part001.initialMem none rfl⟩

end Userstack
